import Mathlib

/-!
Verification of the WinRT BLE characteristic client
(src/winrtble/ble/characteristic.rs of btleplug).

The Rust code drives an external WinRT Bluetooth stack.  We embed the code
shallowly: every fallible platform call is a knob in an explicit environment
record (an `Except WinError` value, or a function of the arguments handed to
the platform).  The operations become pure Lean functions of such an
environment, returning the translated result together with a trace of the
platform calls that were made (bytes and option handed to the GATT write,
CCCD descriptor writes, event-handler deregistrations).  The one `unwrap()`
in the source (`DataWriter::new().unwrap()` in `write_value`) is a genuine
panic path; we model it by making `write_value` return an `Option`, with
`none` standing for the panic.
-/

set_option autoImplicit false

/-- A WinRT error value (the payload of a failed platform call).  Only its
identity matters for the embedding. -/
structure WinError where
  code : Nat
deriving DecidableEq

/-- The communication statuses of
GattCommunicationStatus in the WinRT bindings. -/
inductive GattCommunicationStatus where
  | success
  | unreachable
  | protocolError
  | accessDenied
deriving DecidableEq

/-- The Rust Debug rendering of a GattCommunicationStatus, used by the
format strings in the error messages. -/
def GattCommunicationStatus.debugStr : GattCommunicationStatus → String
  | GattCommunicationStatus.success => "Success"
  | GattCommunicationStatus.unreachable => "Unreachable"
  | GattCommunicationStatus.protocolError => "ProtocolError"
  | GattCommunicationStatus.accessDenied => "AccessDenied"

/-- GattWriteOption of the WinRT bindings. -/
inductive GattWriteOption where
  | writeWithResponse
  | writeWithoutResponse
deriving DecidableEq

/-- WriteType of the btleplug api (an external collaborator, used as given). -/
inductive WriteType where
  | withoutResponse
  | withResponse
deriving DecidableEq

/-- GattClientCharacteristicConfigurationDescriptorValue of the WinRT
bindings. -/
inductive GattCCCDValue where
  | none
  | notify
  | indicate
deriving DecidableEq

/-- The crate-level error type; the code here only ever constructs the
generic Error::Other variant carrying a message string, and propagates
WinRT errors through the question-mark operator (modelled by `winrt`). -/
inductive Error where
  | other : String → Error
  | winrt : WinError → Error
deriving DecidableEq

/-- Fallibility knobs for the three DataReader steps used to turn a platform
buffer into an owned byte vector (DataReader::from_buffer,
unconsumed_buffer_length, read_bytes).  A `some e` means that step fails
with the WinRT error `e`. -/
structure ReaderEnv where
  fromBufferErr : Option WinError
  lenErr : Option WinError
  readBytesErr : Option WinError
deriving DecidableEq

/-- The buffer-to-bytes extraction shared by read_value and the
value-changed handler in subscribe: build a DataReader over the buffer,
take the unconsumed length `len`, allocate `vec![0u8; len]`, and read
`len` bytes into its prefix. -/
def dataReaderExtract (renv : ReaderEnv) (value : List Nat) :
    Except WinError (List Nat) :=
  match renv.fromBufferErr with
  | some e => Except.error e
  | none =>
    match renv.lenErr with
    | some e => Except.error e
    | none =>
      let len := value.length
      let input : List Nat := List.replicate len 0
      match renv.readBytesErr with
      | some e => Except.error e
      | none => Except.ok (value.take len ++ input.drop len)

/-- Environment for one write_value call: whether DataWriter::new,
write_bytes and detach_buffer succeed, and what the platform returns for
write_value_with_option_async(buffer, option).get(). -/
structure WriteEnv where
  dataWriterNew : Except WinError Unit
  writeBytes : List Nat → Except WinError Unit
  detachBuffer : Except WinError Unit
  writeValueAsync : List Nat → GattWriteOption → Except WinError GattCommunicationStatus

/-- Output of write_value: the Result returned to the caller, and the trace
of (bytes, option) pairs handed to the platform write call. -/
structure WriteOutput where
  result : Except Error Unit
  platformWrites : List (List Nat × GattWriteOption)

/-- impl Into GattWriteOption for WriteType. -/
def intoGattWriteOption : WriteType → GattWriteOption
  | WriteType.withoutResponse => GattWriteOption.writeWithoutResponse
  | WriteType.withResponse => GattWriteOption.writeWithResponse

/-- BLECharacteristic::write_value.  `none` models the panic of
DataWriter::new().unwrap(); every other path returns `some` of the Result
the Rust function returns together with the platform-write trace. -/
def write_value (env : WriteEnv) (data : List Nat) (writeType : WriteType) :
    Option WriteOutput :=
  match env.dataWriterNew with
  | Except.error _ => none
  | Except.ok _ =>
    match env.writeBytes data with
    | Except.error e => some ⟨Except.error (Error.winrt e), []⟩
    | Except.ok _ =>
      match env.detachBuffer with
      | Except.error e => some ⟨Except.error (Error.winrt e), []⟩
      | Except.ok _ =>
        let buffer := data
        let opt := intoGattWriteOption writeType
        match env.writeValueAsync buffer opt with
        | Except.error e => some ⟨Except.error (Error.winrt e), [(buffer, opt)]⟩
        | Except.ok result =>
          if result = GattCommunicationStatus.success then
            some ⟨Except.ok (), [(buffer, opt)]⟩
          else
            some ⟨Except.error (Error.other
              ("Windows UWP threw error on write: " ++ result.debugStr)),
              [(buffer, opt)]⟩

/-- The GattReadResult handle returned by read_value_async().get(): its
status() and value() accessors are each fallible platform calls. -/
structure ReadResult where
  status : Except WinError GattCommunicationStatus
  value : Except WinError (List Nat)

/-- The Rust Debug rendering of a GattReadResult, as interpolated into the
read error message; it displays the fields of the handle, in particular the
communication status when that accessor succeeds. -/
def ReadResult.debugStr (r : ReadResult) : String :=
  match r.status with
  | Except.ok st => "GattReadResult(status: " ++ st.debugStr ++ ")"
  | Except.error e => "GattReadResult(status: error " ++ toString e.code ++ ")"

/-- Environment for one read_value call. -/
structure ReadEnv where
  readValueAsync : Except WinError ReadResult
  reader : ReaderEnv

/-- BLECharacteristic::read_value. -/
def read_value (env : ReadEnv) : Except Error (List Nat) :=
  match env.readValueAsync with
  | Except.error e => Except.error (Error.winrt e)
  | Except.ok result =>
    match result.status with
    | Except.error e => Except.error (Error.winrt e)
    | Except.ok st =>
      if st = GattCommunicationStatus.success then
        match result.value with
        | Except.error e => Except.error (Error.winrt e)
        | Except.ok value =>
          match dataReaderExtract env.reader value with
          | Except.error e => Except.error (Error.winrt e)
          | Except.ok input => Except.ok input
      else
        Except.error (Error.other
          ("Windows UWP threw error on read: " ++ result.debugStr))

/-- Environment of one event delivery to the TypedEventHandler wrapper
built in subscribe: whether args.characteristic_value() fails, and the
DataReader knobs of the extraction. -/
structure HandlerEnv where
  charValueErr : Option WinError
  reader : ReaderEnv
deriving DecidableEq

/-- The TypedEventHandler closure built in BLECharacteristic::subscribe.
`args` is the event-arguments parameter: `none` when the platform hands a
null GattValueChangedEventArgs, `some v` when its characteristic_value
accessor would yield the buffer `v`.  Returns the windows Result of the
closure body together with the list of arguments passed to the captured
on_value_changed callback during this delivery. -/
def valueChangedHandlerFn (henv : HandlerEnv) (args : Option (List Nat)) :
    Except WinError Unit × List (List Nat) :=
  match args with
  | Option.none => (Except.ok (), [])
  | some argsVal =>
    match henv.charValueErr with
    | some e => (Except.error e, [])
    | Option.none =>
      match dataReaderExtract henv.reader argsVal with
      | Except.error e => (Except.error e, [])
      | Except.ok input => (Except.ok (), [input])

/-- Environment for the stateful operations on a BLECharacteristic:
the value_changed event registration (returning the token), the
remove_value_changed deregistration for a given token, and the CCCD
descriptor write for a given configuration value. -/
structure CharacteristicEnv where
  valueChanged : Except WinError Nat
  removeValueChanged : Nat → Except WinError Unit
  cccdWrite : GattCCCDValue → Except WinError GattCommunicationStatus

/-- Output of subscribe: the Result, the notify_token field after the call,
the handler registered with the platform (when registration succeeded) and
the trace of CCCD descriptor writes. -/
structure SubOutput where
  result : Except Error Unit
  token : Option Nat
  handler : Option (HandlerEnv → Option (List Nat) → Except WinError Unit × List (List Nat))
  cccdWrites : List GattCCCDValue

/-- BLECharacteristic::subscribe, acting on the notify_token field. -/
def subscribe (env : CharacteristicEnv) (notify_token : Option Nat) : SubOutput :=
  match env.valueChanged with
  | Except.error e => ⟨Except.error (Error.winrt e), notify_token, Option.none, []⟩
  | Except.ok token =>
    match env.cccdWrite GattCCCDValue.notify with
    | Except.error e =>
      ⟨Except.error (Error.winrt e), some token, some valueChangedHandlerFn,
        [GattCCCDValue.notify]⟩
    | Except.ok status =>
      if status = GattCommunicationStatus.success then
        ⟨Except.ok (), some token, some valueChangedHandlerFn,
          [GattCCCDValue.notify]⟩
      else
        ⟨Except.error (Error.other
          ("Windows UWP threw error on subscribe: " ++ status.debugStr)),
          some token, some valueChangedHandlerFn, [GattCCCDValue.notify]⟩

/-- Output of unsubscribe: the Result, the notify_token field after the
call, the tokens whose deregistration was attempted and the trace of CCCD
descriptor writes. -/
structure UnsubOutput where
  result : Except Error Unit
  token : Option Nat
  removals : List Nat
  cccdWrites : List GattCCCDValue

/-- The tail of unsubscribe after the token branch: clear notify_token,
write the CCCD descriptor with the None configuration, translate the
status. -/
def unsubscribeRest (env : CharacteristicEnv) (removals : List Nat) : UnsubOutput :=
  match env.cccdWrite GattCCCDValue.none with
  | Except.error e =>
    ⟨Except.error (Error.winrt e), Option.none, removals, [GattCCCDValue.none]⟩
  | Except.ok status =>
    if status = GattCommunicationStatus.success then
      ⟨Except.ok (), Option.none, removals, [GattCCCDValue.none]⟩
    else
      ⟨Except.error (Error.other
        ("Windows UWP threw error on unsubscribe: " ++ status.debugStr)),
        Option.none, removals, [GattCCCDValue.none]⟩

/-- BLECharacteristic::unsubscribe.  Note the question-mark operator on
remove_value_changed in the source: a deregistration failure returns
early, before the line clearing notify_token is reached. -/
def unsubscribe (env : CharacteristicEnv) (notify_token : Option Nat) : UnsubOutput :=
  match notify_token with
  | some token =>
    match env.removeValueChanged token with
    | Except.error e => ⟨Except.error (Error.winrt e), some token, [token], []⟩
    | Except.ok _ => unsubscribeRest env [token]
  | Option.none => unsubscribeRest env []

/-- Output of Drop::drop: the tokens deregistered, the WinRT errors that
were logged with debug, and the (always empty) trace of CCCD descriptor
writes.  The function is total and returns no Result: drop cannot fail. -/
structure DropOutput where
  removals : List Nat
  logged : List WinError
  cccdWrites : List GattCCCDValue
deriving DecidableEq

/-- impl Drop for BLECharacteristic. -/
def dropCharacteristic (env : CharacteristicEnv) (notify_token : Option Nat) :
    DropOutput :=
  match notify_token with
  | Option.none => ⟨[], [], []⟩
  | some token =>
    match env.removeValueChanged token with
    | Except.ok _ => ⟨[token], [], []⟩
    | Except.error e => ⟨[token], [e], []⟩

/-- The WinRT errors produced by a fallible unit-returning platform call,
as a list (used to state which errors drop logs). -/
def winErrors : Except WinError Unit → List WinError
  | Except.ok _ => []
  | Except.error e => [e]

/-- With no platform failure, the DataReader extraction returns exactly the
bytes of the buffer it was built over. -/
theorem dataReaderExtract_clean (value : List Nat) :
    dataReaderExtract ⟨Option.none, Option.none, Option.none⟩ value =
      Except.ok value := by
  simp [dataReaderExtract]

/-- Evaluation of write_value when every platform step before the status
check succeeds. -/
theorem write_value_status (env : WriteEnv) (data : List Nat) (wt : WriteType)
    (st : GattCommunicationStatus)
    (h1 : env.dataWriterNew = Except.ok ())
    (h2 : env.writeBytes data = Except.ok ())
    (h3 : env.detachBuffer = Except.ok ())
    (h4 : env.writeValueAsync data (intoGattWriteOption wt) = Except.ok st) :
    write_value env data wt = some
      ⟨if st = GattCommunicationStatus.success then Except.ok ()
        else Except.error (Error.other
          ("Windows UWP threw error on write: " ++ st.debugStr)),
        [(data, intoGattWriteOption wt)]⟩ := by
  simp only [write_value, h1, h2, h3, h4]
  by_cases hst : st = GattCommunicationStatus.success <;> simp [hst]

/-- Evaluation of read_value when the platform returns a result handle
whose status accessor succeeds. -/
theorem read_value_status (env : ReadEnv) (r : ReadResult)
    (st : GattCommunicationStatus)
    (h1 : env.readValueAsync = Except.ok r)
    (h2 : r.status = Except.ok st)
    (h3 : st ≠ GattCommunicationStatus.success) :
    read_value env = Except.error (Error.other
      ("Windows UWP threw error on read: " ++ r.debugStr)) := by
  simp [read_value, h1, h2, h3]

/-- C4: for every successful read_value call where the platform buffer has
unconsumed length L, the returned byte sequence has length exactly L and
its contents equal the platform buffer bytes (the extraction allocates a
fresh vector of length L and copies L bytes into it). -/
theorem read_value_exact_copy (env : ReadEnv) (r : ReadResult) (value : List Nat)
    (h1 : env.readValueAsync = Except.ok r)
    (h2 : r.status = Except.ok GattCommunicationStatus.success)
    (h3 : r.value = Except.ok value)
    (h4 : env.reader = ⟨Option.none, Option.none, Option.none⟩) :
    read_value env = Except.ok value ∧
    ∀ out, read_value env = Except.ok out → out.length = value.length := by
  have hmain : read_value env = Except.ok value := by
    simp [read_value, h1, h2, h3, h4, dataReaderExtract_clean]
  refine ⟨hmain, fun out hout => ?_⟩
  rw [hmain] at hout
  cases hout
  rfl

def readEnvW : ReadEnv :=
  ⟨Except.ok ⟨Except.ok GattCommunicationStatus.success, Except.ok [5, 6]⟩,
    ⟨Option.none, Option.none, Option.none⟩⟩

theorem read_value_exact_copy_witness :
    read_value readEnvW = Except.ok [5, 6] ∧
    ∀ out, read_value readEnvW = Except.ok out → out.length = [5, 6].length :=
  read_value_exact_copy readEnvW
    ⟨Except.ok GattCommunicationStatus.success, Except.ok [5, 6]⟩ [5, 6]
    rfl rfl rfl rfl

/-- C5: for every successful write_value call the byte sequence handed to
the platform write equals the input byte sequence, and the write mode is
determined by the write type alone: WithResponse maps to
WriteWithResponse and WithoutResponse to WriteWithoutResponse. -/
theorem write_value_payload_and_mode (env : WriteEnv) (data : List Nat)
    (wt : WriteType)
    (h1 : env.dataWriterNew = Except.ok ())
    (h2 : env.writeBytes data = Except.ok ())
    (h3 : env.detachBuffer = Except.ok ())
    (h4 : env.writeValueAsync data (intoGattWriteOption wt) =
      Except.ok GattCommunicationStatus.success) :
    write_value env data wt =
      some ⟨Except.ok (), [(data, intoGattWriteOption wt)]⟩ ∧
    intoGattWriteOption WriteType.withResponse = GattWriteOption.writeWithResponse ∧
    intoGattWriteOption WriteType.withoutResponse = GattWriteOption.writeWithoutResponse := by
  refine ⟨?_, rfl, rfl⟩
  simpa using write_value_status env data wt GattCommunicationStatus.success h1 h2 h3 h4

def writeEnvW : WriteEnv :=
  ⟨Except.ok (), fun _ => Except.ok (), Except.ok (),
    fun _ _ => Except.ok GattCommunicationStatus.success⟩

theorem write_value_payload_and_mode_witness :
    write_value writeEnvW [170, 187] WriteType.withoutResponse =
      some ⟨Except.ok (), [([170, 187], GattWriteOption.writeWithoutResponse)]⟩ ∧
    intoGattWriteOption WriteType.withResponse = GattWriteOption.writeWithResponse ∧
    intoGattWriteOption WriteType.withoutResponse = GattWriteOption.writeWithoutResponse :=
  write_value_payload_and_mode writeEnvW [170, 187] WriteType.withoutResponse
    rfl rfl rfl rfl

/-- C6: after a successful subscribe, the handler registered with the
platform is the wrapper built around on_value_changed, and on any event
delivery carrying a payload P whose extraction steps (the same DataReader
steps as read_value) encounter no platform failure, the wrapper invokes
on_value_changed exactly once, with an owned byte sequence equal to P,
for every P including the empty sequence. -/
theorem subscribe_handler_delivers_payload (env : CharacteristicEnv)
    (s : Option Nat) (t : Nat)
    (h1 : env.valueChanged = Except.ok t)
    (h2 : env.cccdWrite GattCCCDValue.notify =
      Except.ok GattCommunicationStatus.success) :
    (subscribe env s).result = Except.ok () ∧
    (subscribe env s).handler = some valueChangedHandlerFn ∧
    ∀ (P : List Nat) (henv : HandlerEnv),
      henv.charValueErr = Option.none →
      henv.reader = ⟨Option.none, Option.none, Option.none⟩ →
      valueChangedHandlerFn henv (some P) = (Except.ok (), [P]) := by
  refine ⟨?_, ?_, ?_⟩
  · simp [subscribe, h1, h2]
  · simp [subscribe, h1, h2]
  · intro P henv hcv hr
    cases henv
    cases hcv
    cases hr
    simp [valueChangedHandlerFn, dataReaderExtract_clean]

def subEnvW : CharacteristicEnv :=
  ⟨Except.ok 7, fun _ => Except.ok (),
    fun _ => Except.ok GattCommunicationStatus.success⟩

theorem subscribe_handler_delivers_payload_witness :
    (subscribe subEnvW Option.none).result = Except.ok () ∧
    (subscribe subEnvW Option.none).handler = some valueChangedHandlerFn ∧
    ∀ (P : List Nat) (henv : HandlerEnv),
      henv.charValueErr = Option.none →
      henv.reader = ⟨Option.none, Option.none, Option.none⟩ →
      valueChangedHandlerFn henv (some P) = (Except.ok (), [P]) :=
  subscribe_handler_delivers_payload subEnvW Option.none 7 rfl rfl

/-- C10: when the platform delivers a value-changed event whose
event-arguments payload is absent, the wrapper registered by subscribe
invokes the callback zero times and returns success. -/
theorem handler_ignores_absent_args (henv : HandlerEnv) :
    valueChangedHandlerFn henv Option.none = (Except.ok (), []) := rfl

/-- C8: drop deregisters the local event handler exactly when
notify_token is Some; a deregistration error is logged and discarded (the
function is total and returns no Result, so destruction cannot fail), and
no CCCD descriptor write is performed. -/
theorem drop_best_effort_dereg (env : CharacteristicEnv) (s : Option Nat) :
    (dropCharacteristic env s).cccdWrites = [] ∧
    ((dropCharacteristic env s).removals = [] ↔ s = Option.none) ∧
    ∀ t, s = some t →
      (dropCharacteristic env s).removals = [t] ∧
      (dropCharacteristic env s).logged = winErrors (env.removeValueChanged t) := by
  cases s with
  | none => simp [dropCharacteristic]
  | some t =>
    cases h : env.removeValueChanged t <;>
      simp [dropCharacteristic, h, winErrors]

def dropEnvW : CharacteristicEnv :=
  ⟨Except.ok 0, fun _ => Except.error ⟨3⟩,
    fun _ => Except.ok GattCommunicationStatus.success⟩

theorem drop_best_effort_dereg_witness :
    (dropCharacteristic dropEnvW (some 4)).cccdWrites = [] ∧
    ((dropCharacteristic dropEnvW (some 4)).removals = [] ↔
      (some 4 : Option Nat) = Option.none) ∧
    ∀ t, (some 4 : Option Nat) = some t →
      (dropCharacteristic dropEnvW (some 4)).removals = [t] ∧
      (dropCharacteristic dropEnvW (some 4)).logged =
        winErrors (dropEnvW.removeValueChanged t) :=
  drop_best_effort_dereg dropEnvW (some 4)

/-- C2: when the local event-handler registration succeeds but the CCCD
descriptor write completes with a non-success status, subscribe returns
the generic error and does not roll back the registration: notify_token
remains Some, holding the token stored in step 2, and the handler remains
registered. -/
theorem subscribe_no_rollback_on_cccd_failure (env : CharacteristicEnv)
    (s : Option Nat) (t : Nat) (st : GattCommunicationStatus)
    (h1 : env.valueChanged = Except.ok t)
    (h2 : env.cccdWrite GattCCCDValue.notify = Except.ok st)
    (h3 : st ≠ GattCommunicationStatus.success) :
    (subscribe env s).result = Except.error (Error.other
      ("Windows UWP threw error on subscribe: " ++ st.debugStr)) ∧
    (subscribe env s).token = some t ∧
    (subscribe env s).handler = some valueChangedHandlerFn := by
  refine ⟨?_, ?_, ?_⟩ <;> simp [subscribe, h1, h2, h3]

def subFailEnvW : CharacteristicEnv :=
  ⟨Except.ok 3, fun _ => Except.ok (),
    fun _ => Except.ok GattCommunicationStatus.unreachable⟩

theorem subscribe_no_rollback_on_cccd_failure_witness :
    (subscribe subFailEnvW Option.none).result = Except.error (Error.other
      ("Windows UWP threw error on subscribe: " ++
        GattCommunicationStatus.unreachable.debugStr)) ∧
    (subscribe subFailEnvW Option.none).token = some 3 ∧
    (subscribe subFailEnvW Option.none).handler = some valueChangedHandlerFn :=
  subscribe_no_rollback_on_cccd_failure subFailEnvW Option.none 3
    GattCommunicationStatus.unreachable rfl rfl (by decide)

/-- C7: unsubscribe with notify_token None skips the deregistration but
still writes the CCCD descriptor with the None configuration; and two
consecutive unsubscribe calls whose platform steps succeed both return Ok,
the second performs no deregistration, and both leave notify_token None. -/
theorem unsubscribe_idempotent (env1 env2 : CharacteristicEnv) (s : Option Nat)
    (h1 : ∀ t, env1.removeValueChanged t = Except.ok ())
    (h2 : env1.cccdWrite GattCCCDValue.none =
      Except.ok GattCommunicationStatus.success)
    (h3 : env2.cccdWrite GattCCCDValue.none =
      Except.ok GattCommunicationStatus.success) :
    (s = Option.none →
      (unsubscribe env1 s).removals = [] ∧
      (unsubscribe env1 s).cccdWrites = [GattCCCDValue.none]) ∧
    (unsubscribe env1 s).result = Except.ok () ∧
    (unsubscribe env1 s).token = Option.none ∧
    (unsubscribe env2 (unsubscribe env1 s).token).result = Except.ok () ∧
    (unsubscribe env2 (unsubscribe env1 s).token).token = Option.none ∧
    (unsubscribe env2 (unsubscribe env1 s).token).removals = [] := by
  cases s with
  | none => simp [unsubscribe, unsubscribeRest, h1, h2, h3]
  | some t => simp [unsubscribe, unsubscribeRest, h1, h2, h3]

def unsubEnvW : CharacteristicEnv :=
  ⟨Except.ok 1, fun _ => Except.ok (),
    fun _ => Except.ok GattCommunicationStatus.success⟩

theorem unsubscribe_idempotent_witness :
    ((Option.none : Option Nat) = Option.none →
      (unsubscribe unsubEnvW Option.none).removals = [] ∧
      (unsubscribe unsubEnvW Option.none).cccdWrites = [GattCCCDValue.none]) ∧
    (unsubscribe unsubEnvW Option.none).result = Except.ok () ∧
    (unsubscribe unsubEnvW Option.none).token = Option.none ∧
    (unsubscribe unsubEnvW (unsubscribe unsubEnvW Option.none).token).result =
      Except.ok () ∧
    (unsubscribe unsubEnvW (unsubscribe unsubEnvW Option.none).token).token =
      Option.none ∧
    (unsubscribe unsubEnvW (unsubscribe unsubEnvW Option.none).token).removals = [] :=
  unsubscribe_idempotent unsubEnvW unsubEnvW Option.none
    (fun _ => rfl) rfl rfl

def unsubFailEnvW : CharacteristicEnv :=
  ⟨Except.ok 0, fun _ => Except.error ⟨1⟩,
    fun _ => Except.ok GattCommunicationStatus.success⟩

/-- C1 counterexample: with notify_token Some 0 and a deregistration that
fails with WinRT error 1, unsubscribe returns that deregistration error to
the caller and leaves notify_token at Some 0 (the question-mark operator
on remove_value_changed returns before the clearing line), contradicting
the claim that notification_token is cleared unconditionally and that a
deregistration error is never surfaced. -/
theorem unsubscribe_dereg_error_counterexample :
    (unsubscribe unsubFailEnvW (some 0)).token = some 0 ∧
    (unsubscribe unsubFailEnvW (some 0)).result =
      Except.error (Error.winrt ⟨1⟩) := ⟨rfl, rfl⟩

/-- C1 amended: notify_token is cleared to None whenever the
deregistration step succeeds or is skipped (token absent); when the
deregistration fails, its error is surfaced to the caller as the result of
unsubscribe and notify_token keeps its value, so the client stays
Subscribed. -/
theorem unsubscribe_token_clearing_amended (env : CharacteristicEnv)
    (s : Option Nat) :
    ((∀ t, s = some t → env.removeValueChanged t = Except.ok ()) →
      (unsubscribe env s).token = Option.none) ∧
    (∀ t e, s = some t → env.removeValueChanged t = Except.error e →
      (unsubscribe env s).result = Except.error (Error.winrt e) ∧
      (unsubscribe env s).token = some t) := by
  constructor
  · intro hok
    cases s with
    | none => cases hcw : env.cccdWrite GattCCCDValue.none with
      | error e => simp [unsubscribe, unsubscribeRest, hcw]
      | ok st =>
        by_cases hst : st = GattCommunicationStatus.success <;>
          simp [unsubscribe, unsubscribeRest, hcw, hst]
    | some t =>
      have h := hok t rfl
      cases hcw : env.cccdWrite GattCCCDValue.none with
      | error e => simp [unsubscribe, unsubscribeRest, h, hcw]
      | ok st =>
        by_cases hst : st = GattCommunicationStatus.success <;>
          simp [unsubscribe, unsubscribeRest, h, hcw, hst]
  · intro t e hs he
    cases hs
    simp [unsubscribe, he]

theorem unsubscribe_token_clearing_amended_witness :
    (unsubscribe unsubEnvW (some 2)).token = Option.none ∧
    (unsubscribe unsubFailEnvW (some 2)).result =
      Except.error (Error.winrt ⟨1⟩) ∧
    (unsubscribe unsubFailEnvW (some 2)).token = some 2 := by
  refine ⟨(unsubscribe_token_clearing_amended unsubEnvW (some 2)).1
    (fun _ _ => rfl), ?_, ?_⟩
  · exact ((unsubscribe_token_clearing_amended unsubFailEnvW (some 2)).2
      2 ⟨1⟩ rfl rfl).1
  · exact ((unsubscribe_token_clearing_amended unsubFailEnvW (some 2)).2
      2 ⟨1⟩ rfl rfl).2

def writeEnvPanic : WriteEnv :=
  ⟨Except.error ⟨5⟩, fun _ => Except.ok (), Except.ok (),
    fun _ _ => Except.ok GattCommunicationStatus.success⟩

/-- C9 counterexample: write_value calls DataWriter::new().unwrap(); when
that platform call fails the unwrap panics instead of returning a Result.
In the embedding the panic is the Option.none outcome, reached here at the
concrete input data = [] with a failing DataWriter construction. -/
theorem write_value_unwrap_panic_counterexample :
    write_value writeEnvPanic [] WriteType.withResponse = Option.none := rfl

/-- C9 amended: provided the DataWriter construction that write_value
unwraps succeeds, every operation terminates by returning a Result value,
Ok or an error, never by a panic; read_value, subscribe and unsubscribe
have no panic path at all, whatever the platform does. -/
theorem operations_return_result_amended (wenv : WriteEnv) (data : List Nat)
    (wt : WriteType) (renv : ReadEnv) (cenv : CharacteristicEnv)
    (s : Option Nat)
    (h : wenv.dataWriterNew = Except.ok ()) :
    (∃ out, write_value wenv data wt = some out) ∧
    ((∃ v, read_value renv = Except.ok v) ∨
      (∃ e, read_value renv = Except.error e)) ∧
    ((subscribe cenv s).result = Except.ok () ∨
      ∃ e, (subscribe cenv s).result = Except.error e) ∧
    ((unsubscribe cenv s).result = Except.ok () ∨
      ∃ e, (unsubscribe cenv s).result = Except.error e) := by
  refine ⟨?_, ?_, ?_, ?_⟩
  · simp only [write_value, h]
    cases wenv.writeBytes data with
    | error e => exact ⟨_, rfl⟩
    | ok u =>
      cases wenv.detachBuffer with
      | error e => exact ⟨_, rfl⟩
      | ok u2 =>
        cases wenv.writeValueAsync data (intoGattWriteOption wt) with
        | error e => exact ⟨_, rfl⟩
        | ok st =>
          by_cases hst : st = GattCommunicationStatus.success <;>
            simp [hst]
  · cases hr : read_value renv with
    | ok v => exact Or.inl ⟨v, rfl⟩
    | error e => exact Or.inr ⟨e, rfl⟩
  · cases hr : (subscribe cenv s).result with
    | ok v => cases v; exact Or.inl rfl
    | error e => exact Or.inr ⟨e, rfl⟩
  · cases hr : (unsubscribe cenv s).result with
    | ok v => cases v; exact Or.inl rfl
    | error e => exact Or.inr ⟨e, rfl⟩

theorem operations_return_result_amended_witness :
    (∃ out, write_value writeEnvW [1] WriteType.withResponse = some out) ∧
    ((∃ v, read_value readEnvW = Except.ok v) ∨
      (∃ e, read_value readEnvW = Except.error e)) ∧
    ((subscribe subEnvW Option.none).result = Except.ok () ∨
      ∃ e, (subscribe subEnvW Option.none).result = Except.error e) ∧
    ((unsubscribe subEnvW Option.none).result = Except.ok () ∨
      ∃ e, (unsubscribe subEnvW Option.none).result = Except.error e) :=
  operations_return_result_amended writeEnvW [1] WriteType.withResponse
    readEnvW subEnvW Option.none rfl

/-- C3: whenever the platform GATT operation of write_value, read_value,
subscribe or unsubscribe completes with a communication status (and the
steps before it succeeded; for read_value also the extraction steps after
it), the operation returns Ok exactly when the status is Success, and any
non-success status yields the generic Error::Other whose message carries
the status for diagnostics; a non-success status is never reported as
success. -/
theorem status_translation_uniform :
    (∀ (wenv : WriteEnv) (data : List Nat) (wt : WriteType)
        (st : GattCommunicationStatus),
      wenv.dataWriterNew = Except.ok () →
      wenv.writeBytes data = Except.ok () →
      wenv.detachBuffer = Except.ok () →
      wenv.writeValueAsync data (intoGattWriteOption wt) = Except.ok st →
      ∃ out, write_value wenv data wt = some out ∧
        (out.result = Except.ok () ↔ st = GattCommunicationStatus.success) ∧
        (st ≠ GattCommunicationStatus.success →
          out.result = Except.error (Error.other
            ("Windows UWP threw error on write: " ++ st.debugStr)))) ∧
    (∀ (renv : ReadEnv) (r : ReadResult) (st : GattCommunicationStatus)
        (value : List Nat),
      renv.readValueAsync = Except.ok r →
      r.status = Except.ok st →
      r.value = Except.ok value →
      renv.reader = ⟨Option.none, Option.none, Option.none⟩ →
      ((∃ v, read_value renv = Except.ok v) ↔
        st = GattCommunicationStatus.success) ∧
      (st ≠ GattCommunicationStatus.success →
        read_value renv = Except.error (Error.other
          ("Windows UWP threw error on read: " ++ r.debugStr)))) ∧
    (∀ (env : CharacteristicEnv) (s : Option Nat) (t : Nat)
        (st : GattCommunicationStatus),
      env.valueChanged = Except.ok t →
      env.cccdWrite GattCCCDValue.notify = Except.ok st →
      ((subscribe env s).result = Except.ok () ↔
        st = GattCommunicationStatus.success) ∧
      (st ≠ GattCommunicationStatus.success →
        (subscribe env s).result = Except.error (Error.other
          ("Windows UWP threw error on subscribe: " ++ st.debugStr)))) ∧
    (∀ (env : CharacteristicEnv) (s : Option Nat)
        (st : GattCommunicationStatus),
      (∀ t, s = some t → env.removeValueChanged t = Except.ok ()) →
      env.cccdWrite GattCCCDValue.none = Except.ok st →
      ((unsubscribe env s).result = Except.ok () ↔
        st = GattCommunicationStatus.success) ∧
      (st ≠ GattCommunicationStatus.success →
        (unsubscribe env s).result = Except.error (Error.other
          ("Windows UWP threw error on unsubscribe: " ++ st.debugStr)))) := by
  refine ⟨?_, ?_, ?_, ?_⟩
  · intro wenv data wt st h1 h2 h3 h4
    refine ⟨_, write_value_status wenv data wt st h1 h2 h3 h4, ?_, ?_⟩
    · by_cases hst : st = GattCommunicationStatus.success <;> simp [hst]
    · intro hst; simp [hst]
  · intro renv r st value h1 h2 h3 h4
    by_cases hst : st = GattCommunicationStatus.success
    · cases hst
      have hmain := (read_value_exact_copy renv r value h1 h2 h3 h4).1
      simp [hmain]
    · have hmain := read_value_status renv r st h1 h2 hst
      simp [hmain, hst]
  · intro env s t st h1 h2
    by_cases hst : st = GattCommunicationStatus.success <;>
      simp [subscribe, h1, h2, hst]
  · intro env s st h1 h2
    cases s with
    | none =>
      by_cases hst : st = GattCommunicationStatus.success <;>
        simp [unsubscribe, unsubscribeRest, h2, hst]
    | some t =>
      have h := h1 t rfl
      by_cases hst : st = GattCommunicationStatus.success <;>
        simp [unsubscribe, unsubscribeRest, h, h2, hst]

def readFailEnvW : ReadEnv :=
  ⟨Except.ok ⟨Except.ok GattCommunicationStatus.unreachable, Except.ok []⟩,
    ⟨Option.none, Option.none, Option.none⟩⟩

def writeFailEnvW : WriteEnv :=
  ⟨Except.ok (), fun _ => Except.ok (), Except.ok (),
    fun _ _ => Except.ok GattCommunicationStatus.protocolError⟩

theorem status_translation_uniform_witness :
    (∃ out, write_value writeFailEnvW [9] WriteType.withResponse = some out ∧
      (out.result = Except.ok () ↔
        GattCommunicationStatus.protocolError = GattCommunicationStatus.success) ∧
      (GattCommunicationStatus.protocolError ≠ GattCommunicationStatus.success →
        out.result = Except.error (Error.other
          ("Windows UWP threw error on write: " ++
            GattCommunicationStatus.protocolError.debugStr)))) ∧
    (((∃ v, read_value readFailEnvW = Except.ok v) ↔
      GattCommunicationStatus.unreachable = GattCommunicationStatus.success) ∧
      (GattCommunicationStatus.unreachable ≠ GattCommunicationStatus.success →
        read_value readFailEnvW = Except.error (Error.other
          ("Windows UWP threw error on read: " ++
            ReadResult.debugStr ⟨Except.ok GattCommunicationStatus.unreachable,
              Except.ok []⟩)))) ∧
    (((subscribe subFailEnvW Option.none).result = Except.ok () ↔
      GattCommunicationStatus.unreachable = GattCommunicationStatus.success) ∧
      (GattCommunicationStatus.unreachable ≠ GattCommunicationStatus.success →
        (subscribe subFailEnvW Option.none).result = Except.error (Error.other
          ("Windows UWP threw error on subscribe: " ++
            GattCommunicationStatus.unreachable.debugStr)))) ∧
    (((unsubscribe unsubEnvW (some 5)).result = Except.ok () ↔
      GattCommunicationStatus.success = GattCommunicationStatus.success) ∧
      (GattCommunicationStatus.success ≠ GattCommunicationStatus.success →
        (unsubscribe unsubEnvW (some 5)).result = Except.error (Error.other
          ("Windows UWP threw error on unsubscribe: " ++
            GattCommunicationStatus.success.debugStr)))) :=
  ⟨status_translation_uniform.1 writeFailEnvW [9] WriteType.withResponse
      GattCommunicationStatus.protocolError rfl rfl rfl rfl,
    status_translation_uniform.2.1 readFailEnvW
      ⟨Except.ok GattCommunicationStatus.unreachable, Except.ok []⟩
      GattCommunicationStatus.unreachable [] rfl rfl rfl rfl,
    status_translation_uniform.2.2.1 subFailEnvW Option.none 3
      GattCommunicationStatus.unreachable rfl rfl,
    status_translation_uniform.2.2.2 unsubEnvW (some 5)
      GattCommunicationStatus.success (fun _ _ => rfl) rfl⟩
